import Mathlib

/-!
Verification development for the DOM-to-slide reconstruction pipeline in
`src/main.py` of the html_to_ppt repository.

The Python source is shallowly embedded: pure style-value parsers become Lean
functions over character lists, the recursive element extractor and the shape
synthesizer become structurally recursive functions over explicit tree types,
Python floats are modelled as rationals, and Python `int(...)` truncation is
made explicit.  External collaborators (Selenium, python-pptx, the filesystem)
appear only through the values they hand the core: raster-capture results,
geometry readings and raw CSS strings are inputs of the model.
-/

/-! ## Kernel-computable rational arithmetic

The Batteries definitions of `Rat.add`, `Rat.mul`, `Rat.inv` and `Rat.sub`
are `@[irreducible]`, so concrete evaluation (`decide`) gets stuck on them.
The embedding therefore uses the following wrappers, defined through
`Rat.divInt`, together with bridging lemmas equating them with the standard
operations for use in abstract proofs. -/

def qAdd (a b : ℚ) : ℚ := Rat.divInt (a.num * b.den + b.num * a.den) (a.den * b.den)

def qMul (a b : ℚ) : ℚ := Rat.divInt (a.num * b.num) (a.den * b.den)

def qDiv (a b : ℚ) : ℚ := Rat.divInt (a.num * b.den) (a.den * b.num)

def qSub (a b : ℚ) : ℚ := qAdd a (-b)

/-! ## Python primitive helpers -/

/-- Characters treated as whitespace by Python `str.strip()` (ASCII range,
which is all that CSS computed values contain). -/
def pySpace (c : Char) : Bool :=
  c = ' ' || c = '\t' || c = '\n' || c = '\r' || c = '\x0b' || c = '\x0c'

/-- Python `str.strip()` on a character list. -/
def pyStrip (l : List Char) : List Char :=
  ((l.dropWhile pySpace).reverse.dropWhile pySpace).reverse

/-- Python `int(x)` on a float: truncation toward zero. -/
def pyTrunc (q : ℚ) : ℤ :=
  if 0 ≤ q then ⌊q⌋ else ⌈q⌉

/-- Python `min` on two rationals (kernel-computable). -/
def pyMin (x y : ℚ) : ℚ := if x ≤ y then x else y

/-- Python `max` on two rationals (kernel-computable). -/
def pyMax (x y : ℚ) : ℚ := if x ≤ y then y else x

/-- Python `min` on two integers (kernel-computable). -/
def pyMinZ (x y : ℤ) : ℤ := if x ≤ y then x else y

/-- Python `max` on two integers (kernel-computable). -/
def pyMaxZ (x y : ℤ) : ℤ := if x ≤ y then y else x

/-- Numeric value of a digit string (most significant first). -/
def digitsVal (l : List Char) : ℕ :=
  l.foldl (fun n c => 10 * n + (c.toNat - 48)) 0

/-- Character class of the regex `[\d.]` used by `re.findall` in `parse_color`. -/
def numCls (c : Char) : Bool := c.isDigit || c = '.'

/-- Character class of the regex `[\d.-]` used by the angle search in
`parse_linear_gradient`. -/
def degCls (c : Char) : Bool := c.isDigit || c = '.' || c = '-'

/-- Model of `re.findall(r'[\d.]+', s)`: maximal runs of digits and dots.
The first argument accumulates the current run in reverse. -/
def findallNumAux : List Char → List Char → List (List Char)
  | [], acc => if acc = [] then [] else [acc.reverse]
  | c :: rest, acc =>
    if numCls c then findallNumAux rest (c :: acc)
    else if acc = [] then findallNumAux rest []
    else acc.reverse :: findallNumAux rest []

def findallNum (l : List Char) : List (List Char) := findallNumAux l []

/-- Python `float(tok)` for an unsigned token: succeeds iff the token consists
of digits and at most one dot and contains at least one digit. -/
def pyFloatUnsigned (l : List Char) : Option ℚ :=
  if l.all numCls ∧ l.count '.' ≤ 1 ∧ l.any Char.isDigit then
    let ip := l.takeWhile Char.isDigit
    let rest := l.dropWhile Char.isDigit
    match rest with
    | [] => some (digitsVal ip : ℚ)
    | _ :: fp => some (qAdd (digitsVal ip : ℚ) (mkRat (digitsVal fp) (10 ^ fp.length)))
  else none

/-- Python `float(tok)` for a token drawn from the class `[\d.-]` (as produced
by the gradient angle search): one optional leading minus sign. -/
def pyFloatTok (l : List Char) : Option ℚ :=
  match l with
  | '-' :: rest => (pyFloatUnsigned rest).map (fun q => -q)
  | _ => pyFloatUnsigned l

/-! ## parse_color (src/main.py lines 120-149) -/

/-- The color 4-tuple returned by `parse_color`: channels are the clamped
`int(float(tok))` values, alpha is the clamped float. -/
structure RGBA where
  r : ℕ
  g : ℕ
  b : ℕ
  a : ℚ
deriving DecidableEq, Repr

/-- Channel clamp `max(0, min(255, int(float(tok))))`. -/
def clampChan (i : ℤ) : ℕ := (pyMaxZ 0 (pyMinZ 255 i)).toNat

/-- Alpha clamp `max(0.0, min(1.0, a))`. -/
def clampAlpha (q : ℚ) : ℚ := pyMax 0 (pyMin 1 q)

/-- The alpha token: `float(parts[3])` when a fourth numeric token exists,
`1.0` otherwise; `none` models the `ValueError` caught by `parse_color`. -/
def alphaTok : List (List Char) → Option ℚ
  | [] => some 1
  | t :: _ => pyFloatUnsigned t

/-- Model of `parse_color`: extract the numeric tokens of a CSS color string; empty and
keyword inputs, fewer than three tokens, or any failing float conversion give
fully transparent black. -/
def parse_color (s : String) : RGBA :=
  if s = "" ∨ s = "transparent" ∨ s = "inherit" ∨ s = "initial" ∨ s = "unset" then
    ⟨0, 0, 0, 0⟩
  else
    match findallNum s.toList with
    | p0 :: p1 :: p2 :: rest =>
      match pyFloatUnsigned p0, pyFloatUnsigned p1, pyFloatUnsigned p2, alphaTok rest with
      | some r, some g, some b, some a =>
        ⟨clampChan (pyTrunc r), clampChan (pyTrunc g), clampChan (pyTrunc b), clampAlpha a⟩
      | _, _, _, _ => ⟨0, 0, 0, 0⟩
    | _ => ⟨0, 0, 0, 0⟩

/-! ## parse_linear_gradient (src/main.py lines 151-270) -/

/-- A parsed gradient: `{'angle': float, 'colors': [...]}`. -/
structure GradientInfo where
  angle : ℚ
  colors : List RGBA
deriving DecidableEq, Repr

/-- The suffix of `l` following the first occurrence of the (nonempty)
pattern `pat`; `none` when `pat` does not occur (`str.find` returning -1). -/
def findAfter (pat : List Char) : List Char → Option (List Char)
  | [] => none
  | c :: rest =>
    if pat.isPrefixOf (c :: rest) then some ((c :: rest).drop pat.length)
    else findAfter pat rest

/-- Does (nonempty) `pat` occur as a contiguous substring of `l`?
Models the Python `in` test on strings. -/
def containsSub (pat : List Char) : List Char → Bool
  | [] => false
  | c :: rest => pat.isPrefixOf (c :: rest) || containsSub pat rest

/-- The balanced-parenthesis scan of main.py lines 180-196: starting just
after the opening parenthesis of `linear-gradient(` (depth 1), collect the
characters up to the matching close parenthesis; `none` when the parenthesis
is never closed (`paren_count != 0`). -/
def scanBalancedAux : List Char → ℕ → List Char → Option (List Char)
  | [], _, _ => none
  | c :: rest, depth, acc =>
    if c = ')' then
      if depth = 1 then some acc.reverse
      else scanBalancedAux rest (depth - 1) (c :: acc)
    else if c = '(' then scanBalancedAux rest (depth + 1) (c :: acc)
    else scanBalancedAux rest depth (c :: acc)

/-- The top-level comma split of main.py lines 199-216: split on commas at
parenthesis depth 0, stripping each part; every comma ends a part (even an
empty one), the trailing part is kept only if nonempty after stripping.
`cur` holds the current part in reverse. -/
def splitTLAux : List Char → ℤ → List Char → List (List Char)
  | [], _, cur => if pyStrip cur.reverse = [] then [] else [pyStrip cur.reverse]
  | c :: rest, depth, cur =>
    if c = '(' then splitTLAux rest (depth + 1) (c :: cur)
    else if c = ')' then splitTLAux rest (depth - 1) (c :: cur)
    else if c = ',' ∧ depth = 0 then pyStrip cur.reverse :: splitTLAux rest depth []
    else splitTLAux rest depth (c :: cur)

/-- Model of `re.search(r'([\d.-]+)deg', s)`: the first maximal run of `[\d.-]`
characters immediately followed by the literal `deg` (a maximal run not
followed by `deg` cannot match at any inner start position either, since
`d` is outside the character class). `acc` holds the current run reversed. -/
def findDegRunAux : List Char → List Char → Option (List Char)
  | _, [] => none
  | acc, c :: rest =>
    if degCls c then findDegRunAux (c :: acc) rest
    else if acc ≠ [] ∧ c = 'd' ∧ ['e', 'g'].isPrefixOf rest then some acc.reverse
    else findDegRunAux [] rest

/-- The keyword-direction table of main.py lines 236-245, with the 180°
default of `direction_angles.get(direction, 180)`. -/
def direction_angles (d : List Char) : ℚ :=
  if d = "top".toList then 0
  else if d = "right".toList then 90
  else if d = "bottom".toList then 180
  else if d = "left".toList then 270
  else if d = "top right".toList then 45
  else if d = "bottom right".toList then 135
  else if d = "bottom left".toList then 225
  else if d = "top left".toList then 315
  else 180

/-- Interpretation of the first comma-separated segment (main.py lines
221-248): a `deg` angle, a `to <direction>` keyword, or neither (default
angle 180 and the segment is kept as a color part).  Returns `none` when the
matched angle run fails `float()` (the exception is caught by the outer
handler, failing the whole parse). -/
def pickAngle (first : List Char) (rest : List (List Char)) :
    Option (ℚ × List (List Char)) :=
  if containsSub ['d', 'e', 'g'] first then
    match findDegRunAux [] first with
    | none => some (180, rest)
    | some run =>
      match pyFloatTok run with
      | none => none
      | some a => some (a, rest)
  else if ['t', 'o', ' '].isPrefixOf first then
    some (direction_angles (pyStrip (first.drop 3)), rest)
  else some (180, first :: rest)

/-- Model of `re.sub(r'\s+\d+%', '', part)`: delete every whitespace-run + digit-run +
`%` group.  The `skip` argument consumes the remainder of a match whose
first character has already been dropped. -/
def subPctAux : List Char → ℕ → List Char
  | [], _ => []
  | _ :: rest, skip + 1 => subPctAux rest skip
  | c :: rest, 0 =>
    if pySpace c then
      let l := c :: rest
      let ws := l.takeWhile pySpace
      let afterWs := l.dropWhile pySpace
      let ds := afterWs.takeWhile Char.isDigit
      let afterDs := afterWs.dropWhile Char.isDigit
      match ds, afterDs with
      | _ :: _, '%' :: _ => subPctAux rest (ws.length + ds.length)
      | _, _ => c :: subPctAux rest 0
    else c :: subPctAux rest 0

/-- One gradient color segment (main.py lines 252-258): strip the percentage
position, parse with `parse_color`, and drop fully-transparent black. -/
def parseStop (part : List Char) : Option RGBA :=
  let colorOnly := pyStrip (subPctAux part 0)
  let rgba := parse_color (String.mk colorOnly)
  if rgba = ⟨0, 0, 0, 0⟩ then none else some rgba

/-- Model of `parse_linear_gradient`: locate `linear-gradient(`, scan to the matching
parenthesis, split top-level commas, read the angle/direction segment, parse
the remaining segments as colors, and fail (`None`) when no usable color
remains. -/
def parse_linear_gradient (s : String) : Option GradientInfo :=
  match findAfter "linear-gradient(".toList s.toList with
  | none => none
  | some suffix =>
    match scanBalancedAux suffix 1 [] with
    | none => none
    | some raw =>
      match splitTLAux (pyStrip raw) 0 [] with
      | [] => none
      | first :: restParts =>
        match pickAngle first restParts with
        | none => none
        | some (angle, colorParts) =>
          let colors := colorParts.filterMap parseStop
          if colors = [] then none else some ⟨angle, colors⟩

/-! ## Element tree extraction (src/main.py lines 465-592) -/

/-- The geometry-and-style dictionary `data.geom` built at main.py lines
501-513 from Selenium readings: location, size, and the seven captured
computed-style strings. -/
structure Geom where
  x : ℚ
  y : ℚ
  width : ℚ
  height : ℚ
  fontSize : String
  color : String
  fontWeight : String
  textAlign : String
  backgroundColor : String
  borderRadius : String
  boxShadow : String
deriving DecidableEq, Repr

/-- Model of `ElementData`: the extracted scene node (main.py lines 72-91). -/
structure ElementData where
  tag_name : String
  classes : List String
  text : Option String
  geom : Geom
  icon_path : Option String
  has_background : Bool
  children : List ElementData
deriving Repr

/-- The rendered input element as the extractor observes it through the
rendering collaborator.  `readable = false` models a stale reference whose
tag/class read throws; `geomOk = false` models a failing geometry/style
read; `capture` is the result of the isolated raster capture (screenshot
path, or `none` on capture failure) should the node request one; `textJs`
is the string produced by the direct-text extraction script (`none` when
the script throws). -/
structure HElem where
  readable : Bool
  tagName : String
  classes : List String
  geomOk : Bool
  geom : Geom
  capture : Option String
  textJs : Option String
  children : List HElem
deriving Repr

/-- The `ICON_CLASSES` set (main.py lines 107-112). -/
def ICON_CLASSES : List String :=
  ["material-icons", "toc-icon", "importance-icon", "limitation-icon",
   "check-icon", "partial-icon", "close-icon", "feature-icon", "section-icon",
   "api-icon", "config-icon", "case-icon", "component-icon", "mock-icon",
   "snapshot-icon", "resource-icon"]

/-- The `SLIDE_WIDTH_PX` constant (main.py line 115). -/
def SLIDE_WIDTH_PX : ℚ := 1280

/-- Model of `any(cls in ICON_CLASSES for cls in data.classes)` (main.py line 518). -/
def isIconClassed (classes : List String) : Bool :=
  classes.any (fun c => ICON_CLASSES.contains c)

/-- Membership test `'code-block' in data.classes` (main.py line 523). -/
def isCodeBlockClassed (classes : List String) : Bool :=
  classes.contains "code-block"

/-- The effective direct text: the JS result is stored only when truthy
(nonempty); a throwing script leaves `data.text = None` (main.py lines
557-561). -/
def effText (textJs : Option String) : Option String :=
  match textJs with
  | none => none
  | some t => if t = "" then none else some t

/-- Computation of `data.has_background` (main.py lines 563-573): the parsed background
color has `alpha > 0` and differs from the parent background value
(`None` for the root, hence any color differs there). -/
def hasBgOf (backgroundColor : String) (parent_bg_color : Option RGBA) : Bool :=
  let bg := parse_color backgroundColor
  decide (0 < bg.a) && decide (some bg ≠ parent_bg_color)

/-- Computation of `current_bg_for_children` (main.py line 577). -/
def childBgOf (backgroundColor : String) (parent_bg_color : Option RGBA) : Option RGBA :=
  if hasBgOf backgroundColor parent_bg_color then some (parse_color backgroundColor)
  else parent_bg_color

mutual
/-- Model of `parse_element_recursively` (main.py lines 465-592): read tag/classes
and geometry (failing the subtree on error or zero size), short-circuit
icon-classed and code-block nodes into raster leaves, otherwise extract
direct text, compute the background flag, recurse into children with the
updated inherited background, and prune nodes with no text, no raster, no
background and no surviving children. -/
def parse_element_recursively : HElem → Option RGBA → Option ElementData
  | ⟨readable, tagName, classes, geomOk, geom, capture, textJs, children⟩,
    parent_bg_color =>
    if readable = false then none
    else if geomOk = false then none
    else if geom.width = 0 ∨ geom.height = 0 then none
    else if isIconClassed classes then
      some { tag_name := tagName, classes := classes, text := none,
             geom := geom, icon_path := capture, has_background := false,
             children := [] }
    else if isCodeBlockClassed classes then
      some { tag_name := tagName, classes := classes, text := none,
             geom := geom, icon_path := capture, has_background := false,
             children := [] }
    else
      let text := effText textJs
      let hasBg := hasBgOf geom.backgroundColor parent_bg_color
      let kids := parseChildren children (childBgOf geom.backgroundColor parent_bg_color)
      if text.isNone && (hasBg == false) && kids.isEmpty then none
      else
        some { tag_name := tagName, classes := classes, text := text,
               geom := geom, icon_path := none, has_background := hasBg,
               children := kids }

/-- The child loop of main.py lines 579-586: recurse and keep the non-`None`
results in order. -/
def parseChildren (l : List HElem) (bg : Option RGBA) : List ElementData :=
  match l with
  | [] => []
  | c :: cs =>
    match parse_element_recursively c bg with
    | some d => d :: parseChildren cs bg
    | none => parseChildren cs bg
end

/-! ## PowerPoint synthesis primitives (src/main.py lines 758-923) -/

/-- Model of `px_to_emu` (main.py lines 758-773): `int(px * 9525)` for a numeric
input (all inputs in the model are numeric). -/
def px_to_emu (px : ℚ) : ℤ := pyTrunc (qMul px 9525)

/-- Model of `str.replace(pat, repl)` on character lists: replace every
non-overlapping occurrence left to right (`pat` nonempty in all uses).
`skip` consumes the remaining characters of a match whose head has already
been dropped. -/
def replaceAllAux (pat repl : List Char) : List Char → ℕ → List Char
  | [], _ => []
  | _ :: rest, skip + 1 => replaceAllAux pat repl rest skip
  | c :: rest, 0 =>
    if pat ≠ [] ∧ pat.isPrefixOf (c :: rest) then
      repl ++ replaceAllAux pat repl rest (pat.length - 1)
    else c :: replaceAllAux pat repl rest 0

/-- Driver for the `str.replace` model. -/
def replaceAll (l pat repl : List Char) : List Char := replaceAllAux pat repl l 0

/-- Model of `parse_border_radius` (main.py lines 904-923): first match of
`(\d+(?:\.\d+)?)` — a digit run optionally followed by a dot and a digit
run — with absent/zero/none inputs mapping to 0. -/
def firstNumMatch : List Char → Option ℚ
  | [] => none
  | c :: rest =>
    if c.isDigit then
      let ds := (c :: rest).takeWhile Char.isDigit
      let after := (c :: rest).dropWhile Char.isDigit
      match after with
      | '.' :: a2 =>
        match a2.takeWhile Char.isDigit with
        | [] => some (digitsVal ds : ℚ)
        | fp => some (qAdd (digitsVal ds : ℚ) (mkRat (digitsVal fp) (10 ^ fp.length)))
      | _ => some (digitsVal ds : ℚ)
    else firstNumMatch rest

def parse_border_radius (s : String) : ℚ :=
  if s = "" ∨ s = "0" ∨ s = "0px" ∨ s = "none" then 0
  else match firstNumMatch s.toList with
    | some q => q
    | none => 0

/-! ## Background shapes (src/main.py lines 925-1020) -/

/-- A rectangle/rounded-rectangle background shape as emitted by
`add_background_shape`: EMU geometry, the corner-rounding adjustment when
rounded, the solid fill color, and the best-effort drop-shadow flag. -/
structure BgShape where
  rounded : Bool
  x : ℤ
  y : ℤ
  w : ℤ
  h : ℤ
  adjust : Option ℚ
  fill : ℕ × ℕ × ℕ
  shadow : Bool
deriving DecidableEq, Repr

/-- One channel of `int(fg * alpha + 255 * (1 - alpha))` (main.py lines
986-989): alpha compositing over the assumed white page background. -/
def composite_over_white (fg : ℕ) (alpha : ℚ) : ℕ :=
  (pyTrunc (qAdd (qMul (fg : ℚ) alpha) (qMul 255 (qSub 1 alpha)))).toNat

/-- Model of `add_background_shape` (main.py lines 925-1020): skip on zero alpha or
non-positive EMU size; rounded rectangle when the parsed corner radius is
positive, with adjustment `min(0.5, radius / min(w, h) * 2)`; fill with the
white-composited color when `alpha < 1`, the raw color otherwise; shadow on
a non-`none` box-shadow.  The `'background-color' not in geom` guard of the
source never fires because the extractor always stores that key. -/
def add_background_shape (geom : Geom) : Option BgShape :=
  let bg := parse_color geom.backgroundColor
  if bg.a ≤ 0 then none
  else
    let x_emu := px_to_emu geom.x
    let y_emu := px_to_emu geom.y
    let width_emu := px_to_emu geom.width
    let height_emu := px_to_emu geom.height
    if width_emu ≤ 0 ∨ height_emu ≤ 0 then none
    else
      let border_radius := parse_border_radius geom.borderRadius
      let fill :=
        if bg.a < 1 then
          (composite_over_white bg.r bg.a, composite_over_white bg.g bg.a,
           composite_over_white bg.b bg.a)
        else (bg.r, bg.g, bg.b)
      some { rounded := decide (0 < border_radius),
             x := x_emu, y := y_emu, w := width_emu, h := height_emu,
             adjust := if 0 < border_radius then
                 some (pyMin (mkRat 1 2)
                   (qMul (qDiv border_radius (pyMin geom.width geom.height)) 2))
               else none,
             fill := fill,
             shadow := geom.boxShadow ≠ "" ∧ geom.boxShadow ≠ "none" }

/-! ## Images (src/main.py lines 873-902) -/

/-- A picture shape at EMU geometry. -/
structure PicShape where
  path : String
  x : ℤ
  y : ℤ
  w : ℤ
  h : ℤ
deriving DecidableEq, Repr

/-- Model of `add_image` (main.py lines 873-902): skip falsy paths (the capture
collaborator is taken to have produced a file exactly when it returned a
path, modelling the `os.path.exists` test); zero EMU dimensions are replaced
by the 20-pixel default. -/
def add_image (image_path : Option String) (geom : Geom) : Option PicShape :=
  match image_path with
  | none => none
  | some p =>
    if p = "" then none
    else
      let x_emu := px_to_emu geom.x
      let y_emu := px_to_emu geom.y
      let width_emu := px_to_emu geom.width
      let height_emu := px_to_emu geom.height
      let default_size := px_to_emu 20
      if width_emu = 0 ∨ height_emu = 0 then
        some { path := p, x := x_emu, y := y_emu,
               w := if width_emu = 0 then default_size else width_emu,
               h := if height_emu = 0 then default_size else height_emu }
      else
        some { path := p, x := x_emu, y := y_emu, w := width_emu, h := height_emu }

/-! ## Text boxes (src/main.py lines 1022-1087) -/

/-- Python `int(s)` on a string: optional sign around a nonempty digit run
(whitespace already stripped by the caller). -/
def pyIntStr (l : List Char) : Option ℤ :=
  match l with
  | '-' :: rest =>
    if rest ≠ [] ∧ rest.all Char.isDigit then some (-(digitsVal rest : ℤ)) else none
  | '+' :: rest =>
    if rest ≠ [] ∧ rest.all Char.isDigit then some (digitsVal rest : ℤ) else none
  | _ => if l ≠ [] ∧ l.all Char.isDigit then some (digitsVal l : ℤ) else none

/-- Split a character list on a separator character (Python
`str.split(",")`: every separator ends a field, empty fields kept). -/
def splitOnChar (sep : Char) : List Char → List Char → List (List Char)
  | [], cur => [cur.reverse]
  | c :: rest, cur =>
    if c = sep then cur.reverse :: splitOnChar sep rest []
    else splitOnChar sep rest (c :: cur)

/-- Exponent part of a Python float literal: optional sign, nonempty digits. -/
def pyExpVal (l : List Char) : Option ℤ :=
  match l with
  | '-' :: rest =>
    if rest ≠ [] ∧ rest.all Char.isDigit then some (-(digitsVal rest : ℤ)) else none
  | '+' :: rest =>
    if rest ≠ [] ∧ rest.all Char.isDigit then some (digitsVal rest : ℤ) else none
  | _ => if l ≠ [] ∧ l.all Char.isDigit then some (digitsVal l : ℤ) else none

/-- Magnitude (mantissa and optional power-of-ten exponent) of a Python
float literal without sign. -/
def pyFloatMag (l : List Char) : Option ℚ :=
  let mant := l.takeWhile (fun c => c ≠ 'e' ∧ c ≠ 'E')
  match l.dropWhile (fun c => c ≠ 'e' ∧ c ≠ 'E') with
  | [] => pyFloatUnsigned mant
  | _ :: ex =>
    match pyFloatUnsigned mant, pyExpVal ex with
    | some m, some e =>
      if 0 ≤ e then some (qMul m ((10 ^ e.toNat : ℕ) : ℚ))
      else some (qDiv m ((10 ^ (-e).toNat : ℕ) : ℚ))
    | _, _ => none

/-- Python `float(s)` on a general string (as applied to the font-size style
with `px` removed): strip whitespace, optional sign, mantissa with optional
exponent.  `inf`/`nan` spellings are not modelled; they cannot reach this
call. -/
def pyFloatGen (s : String) : Option ℚ :=
  match pyStrip s.toList with
  | '+' :: rest => pyFloatMag rest
  | '-' :: rest => (pyFloatMag rest).map (fun q => -q)
  | l => pyFloatMag l

/-- The font size in points (main.py lines 1062-1068):
`Pt(int(float(font_size.replace("px", "")) * 0.75))`; `none` when the float
conversion throws (the size is then left unset). -/
def fontSizePt (fontSize : String) : Option ℤ :=
  match pyFloatGen (String.mk (replaceAll fontSize.toList "px".toList [])) with
  | some q => some (pyTrunc (qMul q (mkRat 3 4)))
  | none => none

/-- The font color (main.py lines 1070-1078): strip the `rgba(`/`rgb(`/`)`
wrappers, split on commas, convert the first three fields with `int`;
`RGBColor` validates the 0-255 range, and any failure leaves the color
unset. -/
def fontColor (color : String) : Option (ℤ × ℤ × ℤ) :=
  let color_str := replaceAll (replaceAll (replaceAll color.toList
    "rgba(".toList []) "rgb(".toList []) ")".toList []
  match (splitOnChar ',' color_str []).map pyStrip with
  | p0 :: p1 :: p2 :: _ =>
    match pyIntStr p0, pyIntStr p1, pyIntStr p2 with
    | some r, some g, some b =>
      if 0 ≤ r ∧ r ≤ 255 ∧ 0 ≤ g ∧ g ≤ 255 ∧ 0 ≤ b ∧ b ≤ 255 then some (r, g, b)
      else none
    | _, _, _ => none
  | _ => none

/-- The bold flag (main.py lines 1080-1084): the literal keyword `bold`, or
a purely numeric weight of at least 700. -/
def fontBold (fontWeight : String) : Bool :=
  fontWeight = "bold" ||
    (fontWeight.toList ≠ [] && fontWeight.toList.all Char.isDigit &&
      decide (700 ≤ digitsVal fontWeight.toList))

/-- A text box as emitted by `add_textbox`: EMU geometry, the text run, and
the applied font attributes. -/
structure TextBoxShape where
  x : ℤ
  y : ℤ
  w : ℤ
  h : ℤ
  text : String
  sizePt : Option ℤ
  colorRGB : Option (ℤ × ℤ × ℤ)
  bold : Bool
deriving DecidableEq, Repr

set_option linter.unusedVariables false in
/-- Model of `add_textbox` (main.py lines 1022-1087): skip nodes without truthy text;
work on a copy of the geometry dictionary, widen it by the fixed 30-pixel
safety buffer, and emit the text box.  The result pairs the emitted shape
with the element as it stands after the call: the source writes only to the
copy, so the element is returned unchanged.  `slide_width_px` is accepted
and never read, exactly as in the source. -/
def add_textbox (data : ElementData) (slide_width_px : ℚ) :
    Option TextBoxShape × ElementData :=
  match data.text with
  | none => (none, data)
  | some t =>
    if t = "" then (none, data)
    else
      let geom := { data.geom with width := qAdd data.geom.width 30 }
      (some { x := px_to_emu geom.x, y := px_to_emu geom.y,
              w := px_to_emu geom.width, h := px_to_emu geom.height,
              text := t,
              sizePt := fontSizePt geom.fontSize,
              colorRGB := fontColor geom.color,
              bold := fontBold geom.fontWeight }, data)

/-! ## Recursive slide assembly (src/main.py lines 1089-1116) -/

/-- A shape in a slide's shape collection, in emission order. -/
inductive SlideShape where
  | bg (s : BgShape)
  | pic (p : PicShape)
  | txt (t : TextBoxShape)
deriving DecidableEq, Repr

/-- Truthiness of `data.icon_path` (`if data.icon_path:`): a nonempty path. -/
def iconTruthy (icon_path : Option String) : Bool :=
  match icon_path with
  | none => false
  | some p => p ≠ ""

mutual
/-- Model of `add_elements_to_slide` (main.py lines 1089-1116) for one element:
emit the background shape when `has_background`, then the icon image or the
text box, then the children's shapes.  Returns the shapes together with the
element as it stands after the call (the source never writes to the model,
so the threading returns it unchanged). -/
def renderElement : ElementData → ℚ → List SlideShape × ElementData
  | ⟨tag, cls, text, geom, icon, hasBg, children⟩, slide_width_px =>
    let data : ElementData := ⟨tag, cls, text, geom, icon, hasBg, children⟩
    let bgShapes :=
      if hasBg then
        match add_background_shape geom with
        | some s => [SlideShape.bg s]
        | none => []
      else []
    let contentAndData :=
      if iconTruthy icon then
        (match add_image icon geom with
         | some p => [SlideShape.pic p]
         | none => [], data)
      else
        match add_textbox data slide_width_px with
        | (some t, d) => ([SlideShape.txt t], d)
        | (none, d) => ([], d)
    let childrenOut := renderChildren children slide_width_px
    (bgShapes ++ contentAndData.1 ++ childrenOut.1,
     { contentAndData.2 with children := childrenOut.2 })

/-- The loop of `add_elements_to_slide` over a list of elements. -/
def renderChildren (elements : List ElementData) (slide_width_px : ℚ) :
    List SlideShape × List ElementData :=
  match elements with
  | [] => ([], [])
  | d :: rest =>
    let hd := renderElement d slide_width_px
    let tl := renderChildren rest slide_width_px
    (hd.1 ++ tl.1, hd.2 :: tl.2)
end

/-- Model of `add_elements_to_slide` (main.py lines 1089-1116): the top-level entry
on a slide's element list. -/
def add_elements_to_slide (elements : List ElementData) (slide_width_px : ℚ) :
    List SlideShape × List ElementData :=
  renderChildren elements slide_width_px

/-! ## Slide background resolution (src/main.py lines 789-871) -/

/-- Python float `%` (used for `(angle + 90) % 360`): `a - b * floor(a / b)`. -/
def pyFMod (a b : ℚ) : ℚ := qSub a (qMul b ((⌊qDiv a b⌋ : ℤ) : ℚ))

/-- The background fill state of a freshly added slide after
`add_slide_with_gradient_background` returns. `gradDefaultStops` is the
outcome of `fill.gradient()` with fewer than two parsed colors: a gradient
fill whose angle was set but whose default stops were left untouched. -/
inductive SlideBg where
  | defaultBg
  | gradDefaultStops (angle : ℚ)
  | gradTwoStops (angle : ℚ) (c0 c1 : ℕ × ℕ × ℕ)
  | solidBg (c : ℕ × ℕ × ℕ)
deriving DecidableEq, Repr

/-- Model of `add_slide_with_gradient_background` (main.py lines 789-871): no style
keeps the default (white) layout background; a parsed gradient sets a
gradient fill at angle `(cssAngle + 90) % 360`, writing the first two parsed
colors into the two stops when at least two are available; otherwise the
style is handed to `parse_color`, and since a Python 4-tuple is always
truthy, the `if color:` test always succeeds and a solid fill with the
parsed RGB is applied — including opaque black for unparseable input. -/
def add_slide_with_gradient_background (background_style : Option String) : SlideBg :=
  match background_style with
  | none => .defaultBg
  | some s =>
    if s = "" then .defaultBg
    else
      match parse_linear_gradient s with
      | some gi =>
        let ppt_angle := pyFMod (qAdd gi.angle 90) 360
        match gi.colors with
        | c0 :: c1 :: _ => .gradTwoStops ppt_angle (c0.r, c0.g, c0.b) (c1.r, c1.g, c1.b)
        | _ => .gradDefaultStops ppt_angle
      | none =>
        let color := parse_color s
        .solidBg (color.r, color.g, color.b)

/-! ## Concrete inputs used by claim counterexamples and witnesses -/

/-- Geometry of an icon-classed element with a transparent background. -/
def geomIcon : Geom :=
  ⟨0, 0, 10, 10, "16px", "rgb(0, 0, 0)", "400", "left", "rgba(0, 0, 0, 0)", "0px", "none"⟩

/-- Icon-classed element whose isolated raster capture failed
(`take_icon_screenshot` returned `None`). -/
def iconFailElem : HElem := ⟨true, "span", ["check-icon"], true, geomIcon, none, some "", []⟩

/-- Extraction result for `iconFailElem`. -/
def iconFailData : ElementData := ⟨"span", ["check-icon"], none, geomIcon, none, false, []⟩

/-- Readable, visible, non-icon element with no text, transparent background
and no children. -/
def emptyDivElem : HElem := ⟨true, "div", [], true, geomIcon, none, some "", []⟩

/-- Geometry with an opaque red background. -/
def geomRed : Geom :=
  ⟨0, 0, 10, 10, "16px", "rgb(0, 0, 0)", "400", "left", "rgb(255, 0, 0)", "0px", "none"⟩

/-- Icon-classed element with an opaque red background and a successful
capture. -/
def iconRedElem : HElem :=
  ⟨true, "span", ["check-icon"], true, geomRed, some "icon.png", some "", []⟩

/-- Extraction result for `iconRedElem`. -/
def iconRedData : ElementData :=
  ⟨"span", ["check-icon"], none, geomRed, some "icon.png", false, []⟩

/-- Plain div with text over an opaque red background. -/
def divRedElem : HElem := ⟨true, "div", [], true, geomRed, none, some "hello", []⟩

/-- Extraction result for `divRedElem`. -/
def divRedData : ElementData := ⟨"div", [], some "hello", geomRed, none, true, []⟩

/-- Geometry of a title-classed text node: measured width 400 at x = 100. -/
def titleGeom : Geom :=
  ⟨100, 50, 400, 60, "40px", "rgb(0, 0, 0)", "700", "left", "rgba(0, 0, 0, 0)", "0px", "none"⟩

/-- A title-classed text leaf. -/
def titleData : ElementData := ⟨"h1", ["title"], some "Big Title", titleGeom, none, false, []⟩

/-- The text box `add_textbox` emits for `titleData`. -/
def titleBox : TextBoxShape :=
  ⟨952500, 476250, 4095750, 571500, "Big Title", some 30, some (0, 0, 0), true⟩

/-- Geometry with the worked half-transparent red background of the spec,
`rgba(200, 0, 0, 0.5)`. -/
def geomRedHalf : Geom :=
  ⟨10, 20, 100, 50, "16px", "rgb(0, 0, 0)", "400", "left", "rgba(200, 0, 0, 0.5)",
   "0px", "none"⟩

/-- The background shape `add_background_shape` emits for `geomRedHalf`. -/
def shapeRedHalf : BgShape :=
  ⟨false, 95250, 190500, 952500, 476250, none, (227, 127, 127), false⟩

/-- A three-stop gradient style: the claim under test says the first and the
last stops are honored. -/
def gradThreeStops : String := "linear-gradient(90deg, rgb(1,1,1), rgb(2,2,2), rgb(3,3,3))"

/-! ## Helper lemmas -/

theorem qAdd_eq (a b : ℚ) : qAdd a b = a + b := by
  rw [qAdd]
  conv_rhs => rw [← Rat.num_divInt_den a, ← Rat.num_divInt_den b]
  rw [Rat.divInt_add_divInt _ _ (Int.natCast_ne_zero.mpr a.den_nz)
        (Int.natCast_ne_zero.mpr b.den_nz)]

theorem qMul_eq (a b : ℚ) : qMul a b = a * b := by
  rw [qMul]
  conv_rhs => rw [← Rat.num_divInt_den a, ← Rat.num_divInt_den b]
  rw [Rat.divInt_mul_divInt']

theorem qDiv_eq (a b : ℚ) : qDiv a b = a / b := by
  rw [qDiv, Rat.div_def']

theorem qSub_eq (a b : ℚ) : qSub a b = a - b := by
  rw [qSub, qAdd_eq, sub_eq_add_neg]

theorem clampChan_le (i : ℤ) : clampChan i ≤ 255 := by
  unfold clampChan pyMaxZ pyMinZ
  split <;> split <;> omega

theorem clampAlpha_bounds (q : ℚ) : 0 ≤ clampAlpha q ∧ clampAlpha q ≤ 1 := by
  unfold clampAlpha pyMax pyMin
  split <;> split <;> constructor <;> linarith

/-- Lemma: `parse_color` returns either the failure value or a clamped tuple. -/
theorem parse_color_cases (s : String) :
    parse_color s = ⟨0, 0, 0, 0⟩ ∨
    ∃ r g b a, parse_color s =
      ⟨clampChan (pyTrunc r), clampChan (pyTrunc g), clampChan (pyTrunc b), clampAlpha a⟩ := by
  unfold parse_color
  split
  · exact Or.inl rfl
  · split
    · split
      · exact Or.inr ⟨_, _, _, _, rfl⟩
      all_goals exact Or.inl rfl
    · exact Or.inl rfl

/-! ## Claim theorems -/

/-- C5: `parse_color` is total — for every string it returns a 4-tuple with
the channels in [0,255] and alpha in [0,1]; a missing alpha defaults to 1;
the empty string, the four CSS keywords, and unparseable input return
(0,0,0,0); `rgba(211,47,47,0.05)` returns (211,47,47,0.05). -/
theorem C5_parse_color_total :
    (∀ s : String, (parse_color s).r ≤ 255 ∧ (parse_color s).g ≤ 255 ∧
      (parse_color s).b ≤ 255 ∧ 0 ≤ (parse_color s).a ∧ (parse_color s).a ≤ 1) ∧
    parse_color "" = ⟨0, 0, 0, 0⟩ ∧
    parse_color "transparent" = ⟨0, 0, 0, 0⟩ ∧
    parse_color "inherit" = ⟨0, 0, 0, 0⟩ ∧
    parse_color "initial" = ⟨0, 0, 0, 0⟩ ∧
    parse_color "unset" = ⟨0, 0, 0, 0⟩ ∧
    parse_color "!!no numbers!!" = ⟨0, 0, 0, 0⟩ ∧
    parse_color "rgba(211,47,47,0.05)" = ⟨211, 47, 47, mkRat 1 20⟩ ∧
    parse_color "rgb(5,6,7)" = ⟨5, 6, 7, 1⟩ := by
  refine ⟨?_, by decide, by decide, by decide, by decide, by decide, by decide,
    by decide, by decide⟩
  intro s
  rcases parse_color_cases s with h | ⟨r, g, b, a, h⟩
  · rw [h]
    refine ⟨by norm_num, by norm_num, by norm_num, le_refl 0, by norm_num⟩
  · rw [h]
    exact ⟨clampChan_le _, clampChan_le _, clampChan_le _,
      (clampAlpha_bounds a).1, (clampAlpha_bounds a).2⟩

/-- C3 (code bug): when both gradient parsing and solid-color parsing fail,
the source does not leave the slide at its default white background — the
tuple `(0, 0, 0, 0)` returned by `parse_color` is truthy in Python, so the
`if color:` test at main.py line 858 always succeeds and the slide receives
an opaque black solid fill; the `else` branch that would leave the default
background (and log a warning) is unreachable. -/
theorem C3_both_fail_black :
    parse_linear_gradient "foo" = none ∧
    parse_color "foo" = ⟨0, 0, 0, 0⟩ ∧
    add_slide_with_gradient_background (some "foo") = .solidBg (0, 0, 0) ∧
    SlideBg.solidBg (0, 0, 0) ≠ .defaultBg := by
  refine ⟨by decide, by decide, by decide, by decide⟩

/-- C6: `parse_linear_gradient` — balanced-parenthesis extraction with
top-level comma splitting; the keyword-direction table (with corners) and
the 180° default; percentage suffixes are stripped and fully-transparent
stops discarded; `none` is returned exactly when no usable color survives;
and the worked example yields angle 135 with the single usable stop
(10,20,30,1). -/
theorem C6_parse_linear_gradient :
    (∀ (s : String) (gi : GradientInfo),
      parse_linear_gradient s = some gi → gi.colors ≠ []) ∧
    parse_linear_gradient "linear-gradient(135deg, rgba(0,0,0,0) 0%, rgb(10,20,30) 100%)" =
      some ⟨135, [⟨10, 20, 30, 1⟩]⟩ ∧
    parse_linear_gradient "linear-gradient(to top, rgb(1,2,3), rgb(4,5,6))" =
      some ⟨0, [⟨1, 2, 3, 1⟩, ⟨4, 5, 6, 1⟩]⟩ ∧
    parse_linear_gradient "linear-gradient(to right, rgb(1,2,3), rgb(4,5,6))" =
      some ⟨90, [⟨1, 2, 3, 1⟩, ⟨4, 5, 6, 1⟩]⟩ ∧
    parse_linear_gradient "linear-gradient(to bottom, rgb(1,2,3), rgb(4,5,6))" =
      some ⟨180, [⟨1, 2, 3, 1⟩, ⟨4, 5, 6, 1⟩]⟩ ∧
    parse_linear_gradient "linear-gradient(to left, rgb(1,2,3), rgb(4,5,6))" =
      some ⟨270, [⟨1, 2, 3, 1⟩, ⟨4, 5, 6, 1⟩]⟩ ∧
    parse_linear_gradient "linear-gradient(to top right, rgb(1,2,3), rgb(4,5,6))" =
      some ⟨45, [⟨1, 2, 3, 1⟩, ⟨4, 5, 6, 1⟩]⟩ ∧
    parse_linear_gradient "linear-gradient(to bottom right, rgb(1,2,3), rgb(4,5,6))" =
      some ⟨135, [⟨1, 2, 3, 1⟩, ⟨4, 5, 6, 1⟩]⟩ ∧
    parse_linear_gradient "linear-gradient(to bottom left, rgb(1,2,3), rgb(4,5,6))" =
      some ⟨225, [⟨1, 2, 3, 1⟩, ⟨4, 5, 6, 1⟩]⟩ ∧
    parse_linear_gradient "linear-gradient(to top left, rgb(1,2,3), rgb(4,5,6))" =
      some ⟨315, [⟨1, 2, 3, 1⟩, ⟨4, 5, 6, 1⟩]⟩ ∧
    parse_linear_gradient "linear-gradient(rgb(1,2,3), rgb(4,5,6))" =
      some ⟨180, [⟨1, 2, 3, 1⟩, ⟨4, 5, 6, 1⟩]⟩ ∧
    parse_linear_gradient "linear-gradient(45deg, rgba(0,0,0,0), rgba(0, 0, 0, 0) 50%)" =
      none := by
  refine ⟨?_, by decide, by decide, by decide, by decide, by decide, by decide,
    by decide, by decide, by decide, by decide, by decide⟩
  intro s gi h
  unfold parse_linear_gradient at h
  split at h
  · exact Option.noConfusion h
  split at h
  · exact Option.noConfusion h
  split at h
  · exact Option.noConfusion h
  split at h
  · exact Option.noConfusion h
  dsimp only at h
  split at h
  · exact Option.noConfusion h
  · rename_i hcolors
    injection h with h2
    subst h2
    simpa using hcolors

/-- Witness for C6: the universal no-empty-stop-list component applied to
the worked example input. -/
theorem C6_parse_linear_gradient_witness :
    (GradientInfo.mk 135 [⟨10, 20, 30, 1⟩]).colors ≠ [] :=
  C6_parse_linear_gradient.1
    "linear-gradient(135deg, rgba(0,0,0,0) 0%, rgb(10,20,30) 100%)"
    ⟨135, [⟨10, 20, 30, 1⟩]⟩ (by decide)

/-- C4 (amended): for a parsed gradient with at least two stops the slide
fill becomes a two-stop linear gradient at angle `(cssAngle + 90) mod 360`
(so CSS 180° maps to 270 and `to right` maps through CSS angle 90 to 180);
when more than two stops were parsed, the two honored stops are the first
and the SECOND parsed colors (not the first and the last as claimed). -/
theorem C4_gradient_amended :
    (∀ (s : String) (gi : GradientInfo) (c0 c1 : RGBA) (rest : List RGBA),
      parse_linear_gradient s = some gi → gi.colors = c0 :: c1 :: rest →
      add_slide_with_gradient_background (some s) =
        .gradTwoStops (pyFMod (qAdd gi.angle 90) 360)
          (c0.r, c0.g, c0.b) (c1.r, c1.g, c1.b)) ∧
    add_slide_with_gradient_background
        (some "linear-gradient(180deg, rgb(1,2,3), rgb(4,5,6))") =
      .gradTwoStops 270 (1, 2, 3) (4, 5, 6) ∧
    add_slide_with_gradient_background
        (some "linear-gradient(to right, rgb(1,2,3), rgb(4,5,6))") =
      .gradTwoStops 180 (1, 2, 3) (4, 5, 6) := by
  refine ⟨?_, by decide, by decide⟩
  intro s gi c0 c1 rest hparse hcolors
  have hs : ¬s = "" := by
    intro hs
    subst hs
    exact Option.noConfusion ((by decide : parse_linear_gradient "" = none) ▸ hparse)
  unfold add_slide_with_gradient_background
  dsimp only
  rw [if_neg hs, hparse]
  dsimp only
  rw [hcolors]

/-- Witness for C4: the universal component applied to the 180° two-stop
example. -/
theorem C4_gradient_amended_witness :
    add_slide_with_gradient_background
        (some "linear-gradient(180deg, rgb(1,2,3), rgb(4,5,6))") =
      .gradTwoStops (pyFMod (qAdd 180 90) 360) (1, 2, 3) (4, 5, 6) :=
  C4_gradient_amended.1 "linear-gradient(180deg, rgb(1,2,3), rgb(4,5,6))"
    ⟨180, [⟨1, 2, 3, 1⟩, ⟨4, 5, 6, 1⟩]⟩ ⟨1, 2, 3, 1⟩ ⟨4, 5, 6, 1⟩ []
    (by decide) rfl

/-- Counterexample for C4: on a three-stop gradient the code honors the
first and the SECOND parsed colors; the last parsed color (3,3,3) is not
used, contradicting the claim that the first and last are honored. -/
theorem C4_counterexample :
    parse_linear_gradient gradThreeStops =
      some ⟨90, [⟨1, 1, 1, 1⟩, ⟨2, 2, 2, 1⟩, ⟨3, 3, 3, 1⟩]⟩ ∧
    add_slide_with_gradient_background (some gradThreeStops) =
      .gradTwoStops 180 (1, 1, 1) (2, 2, 2) ∧
    ((2, 2, 2) : ℕ × ℕ × ℕ) ≠ (3, 3, 3) := by
  refine ⟨by decide, by decide, by decide⟩

/-- C7: background shapes — alpha 0 emits nothing; an emitted shape with
alpha < 1 is filled with the opaque white-composite `fg*a + 255*(1-a)` per
channel (so rgba(200,0,0,0.5) fills as (227,127,127)); alpha = 1 keeps the
original RGB. -/
theorem C7_background_alpha :
    (∀ geom : Geom, (parse_color geom.backgroundColor).a = 0 →
      add_background_shape geom = none) ∧
    (∀ (geom : Geom) (sh : BgShape), add_background_shape geom = some sh →
      ((parse_color geom.backgroundColor).a < 1 →
        sh.fill = (composite_over_white (parse_color geom.backgroundColor).r
                     (parse_color geom.backgroundColor).a,
                   composite_over_white (parse_color geom.backgroundColor).g
                     (parse_color geom.backgroundColor).a,
                   composite_over_white (parse_color geom.backgroundColor).b
                     (parse_color geom.backgroundColor).a)) ∧
      ((parse_color geom.backgroundColor).a = 1 →
        sh.fill = ((parse_color geom.backgroundColor).r,
                   (parse_color geom.backgroundColor).g,
                   (parse_color geom.backgroundColor).b))) ∧
    add_background_shape geomRedHalf = some shapeRedHalf ∧
    parse_color geomRedHalf.backgroundColor = ⟨200, 0, 0, mkRat 1 2⟩ ∧
    shapeRedHalf.fill = (227, 127, 127) := by
  refine ⟨?_, ?_, by decide, by decide, by decide⟩
  · intro geom h
    unfold add_background_shape
    dsimp only
    rw [if_pos (le_of_eq h)]
  · intro geom sh h
    unfold add_background_shape at h
    dsimp only at h
    split at h
    · exact Option.noConfusion h
    split at h
    · exact Option.noConfusion h
    injection h with h2
    subst h2
    constructor
    · intro ha
      simp only [if_pos ha]
    · intro ha
      have : ¬(parse_color geom.backgroundColor).a < 1 := by
        rw [ha]
        exact lt_irrefl 1
      simp only [if_neg this]

/-- Witness for C7: the emitted-shape component applied to the worked
rgba(200,0,0,0.5) geometry. -/
theorem C7_background_alpha_witness :
    shapeRedHalf.fill =
      (composite_over_white (parse_color geomRedHalf.backgroundColor).r
         (parse_color geomRedHalf.backgroundColor).a,
       composite_over_white (parse_color geomRedHalf.backgroundColor).g
         (parse_color geomRedHalf.backgroundColor).a,
       composite_over_white (parse_color geomRedHalf.backgroundColor).b
         (parse_color geomRedHalf.backgroundColor).a) :=
  (C7_background_alpha.2.1 geomRedHalf shapeRedHalf (by decide)).1 (by decide)

/-- Any emitted text box records exactly the measured width plus the fixed
30-pixel buffer, regardless of the node's class list. -/
theorem add_textbox_width (d : ElementData) (swpx : ℚ) (box : TextBoxShape)
    (h : (add_textbox d swpx).1 = some box) :
    box.w = px_to_emu (qAdd d.geom.width 30) ∧
    ∀ cls : List String, (add_textbox { d with classes := cls } swpx).1 = some box := by
  cases d with
  | mk tag cls0 text geom icon hasBg children =>
    cases text with
    | none => exact Option.noConfusion h
    | some t =>
      by_cases ht : t = ""
      · subst ht
        simp [add_textbox] at h
      · simp only [add_textbox, if_neg ht] at h ⊢
        injection h with h2
        subst h2
        exact ⟨rfl, fun cls => rfl⟩

/-- C2 (corrected/amended): `add_textbox` applies no class-sensitive width
heuristic — every text leaf, full-bleed-classed or not, is widened by the
fixed 30-pixel buffer, never to a right-margin-based width and never by a
multiplicative factor. -/
theorem C2_width_amended :
    ∀ (d : ElementData) (swpx : ℚ) (box : TextBoxShape),
      (add_textbox d swpx).1 = some box →
      box.w = px_to_emu (qAdd d.geom.width 30) ∧
      ∀ cls : List String, (add_textbox { d with classes := cls } swpx).1 = some box :=
  fun d swpx box h => add_textbox_width d swpx box h

/-- Witness for C2 (amended): the title node of the claim's worked example
produces a 430-pixel-wide box independently of its class list. -/
theorem C2_width_amended_witness :
    titleBox.w = px_to_emu (qAdd titleData.geom.width 30) ∧
    ∀ cls : List String,
      (add_textbox { titleData with classes := cls } SLIDE_WIDTH_PX).1 = some titleBox :=
  C2_width_amended titleData SLIDE_WIDTH_PX titleBox (by decide)

/-- Counterexample for C2: the claim's own worked example fails on the code.
A title-classed node with measured width 400 at x = 100 on the 1280-pixel
slide is widened to 430 px (the uniform buffer), not to the claimed
1280 - 100 - 40 = 1140 px right-margin expansion. -/
theorem C2_counterexample :
    (add_textbox titleData SLIDE_WIDTH_PX).1 = some titleBox ∧
    titleBox.w = px_to_emu (qAdd 400 30) ∧
    px_to_emu (qAdd 400 30) ≠ px_to_emu (qSub (qSub SLIDE_WIDTH_PX 100) 40) := by
  refine ⟨by decide, by decide, by decide⟩

/-- Adding the 30-pixel buffer before EMU conversion adds exactly
30 * 9525 EMU for nonnegative measured widths. -/
theorem px_to_emu_qAdd30 (w : ℚ) (hw : 0 ≤ w) :
    px_to_emu (qAdd w 30) = px_to_emu w + 285750 := by
  unfold px_to_emu pyTrunc
  rw [qMul_eq, qMul_eq, qAdd_eq]
  rw [if_pos (by positivity), if_pos (by positivity)]
  have h : (w + 30) * 9525 = w * 9525 + ((285750 : ℤ) : ℚ) := by
    push_cast
    ring
  rw [h, Int.floor_add_int]

/-- C10: every placed text box is exactly the measured width plus 30 pixels
(then converted to EMU), uniformly across title and non-title nodes, and for
the nonnegative widths the rendering surface reports this is strictly wider
than the measured width. -/
theorem C10_textbox_width :
    ∀ (d : ElementData) (swpx : ℚ) (box : TextBoxShape),
      (add_textbox d swpx).1 = some box →
      box.w = px_to_emu (qAdd d.geom.width 30) ∧
      (0 ≤ d.geom.width → px_to_emu d.geom.width < box.w) := by
  intro d swpx box h
  obtain ⟨hw, -⟩ := add_textbox_width d swpx box h
  refine ⟨hw, fun hpos => ?_⟩
  rw [hw, px_to_emu_qAdd30 d.geom.width hpos]
  omega

/-- Witness for C10: the title example box is 430 px wide in EMU, strictly
wider than the 400-px measurement. -/
theorem C10_textbox_width_witness :
    titleBox.w = px_to_emu (qAdd titleData.geom.width 30) ∧
    (0 ≤ titleData.geom.width → px_to_emu titleData.geom.width < titleBox.w) :=
  C10_textbox_width titleData SLIDE_WIDTH_PX titleBox (by decide)

/-- C1 (corrected/amended): the pruning iff holds for readable, visibly
laid-out nodes that are NOT icon-classed and NOT code-block-classed: such a
node is discarded exactly when it has no direct text, no background of its
own, and no surviving children (its raster path is always `None` there).
Icon-classed and code-block nodes, however, are returned unconditionally
before the pruning check runs — after a raster-capture failure such a node
is a childless node with no raster, no text and no background, yet it is
NOT pruned. -/
theorem C1_pruning_amended :
    (∀ (e : HElem) (pbg : Option RGBA),
      e.readable = true → e.geomOk = true →
      e.geom.width ≠ 0 → e.geom.height ≠ 0 →
      isIconClassed e.classes = false → isCodeBlockClassed e.classes = false →
      (parse_element_recursively e pbg = none ↔
        effText e.textJs = none ∧
        hasBgOf e.geom.backgroundColor pbg = false ∧
        parseChildren e.children (childBgOf e.geom.backgroundColor pbg) = [])) ∧
    (∀ (e : HElem) (pbg : Option RGBA),
      e.readable = true → e.geomOk = true →
      e.geom.width ≠ 0 → e.geom.height ≠ 0 →
      (isIconClassed e.classes = true ∨ isCodeBlockClassed e.classes = true) →
      parse_element_recursively e pbg =
        some ⟨e.tagName, e.classes, none, e.geom, e.capture, false, []⟩) := by
  constructor
  · intro e pbg hr hg hw hh hic hcb
    cases e with
    | mk readable tagName classes geomOk geom capture textJs children =>
      subst hr
      subst hg
      dsimp only at hw hh hic hcb
      simp only [parse_element_recursively, hic, hcb, Bool.true_eq_false,
        Bool.false_eq_true, if_false, if_true,
        if_neg (by simp [hw, hh] : ¬(geom.width = 0 ∨ geom.height = 0))]
      split
      · rename_i hcond
        simp only [Bool.and_eq_true, Option.isNone_iff_eq_none, beq_iff_eq,
          List.isEmpty_iff, decide_eq_true_eq] at hcond
        simp [hcond]
      · rename_i hcond
        simp only [Bool.and_eq_true, Option.isNone_iff_eq_none, beq_iff_eq,
          List.isEmpty_iff, decide_eq_true_eq, not_and] at hcond
        constructor
        · intro hfalse
          exact Option.noConfusion hfalse
        · intro ⟨h1, h2, h3⟩
          exact absurd h3 (hcond ⟨h1, h2⟩)
  · intro e pbg hr hg hw hh hic
    cases e with
    | mk readable tagName classes geomOk geom capture textJs children =>
      subst hr
      subst hg
      dsimp only at hw hh hic
      rcases hic with hic | hcb
      · simp only [parse_element_recursively, hic, Bool.true_eq_false,
          Bool.false_eq_true, if_false, if_true,
          if_neg (by simp [hw, hh] : ¬(geom.width = 0 ∨ geom.height = 0))]
      · simp only [parse_element_recursively, hcb, Bool.true_eq_false,
          Bool.false_eq_true, if_false, if_true,
          if_neg (by simp [hw, hh] : ¬(geom.width = 0 ∨ geom.height = 0))]
        split <;> rfl

/-- Witness for C1: the pruning characterization applied to a readable,
visible, classless div with no text, no background and no children — it is
discarded. -/
theorem C1_pruning_amended_witness :
    parse_element_recursively emptyDivElem none = none :=
  (C1_pruning_amended.1 emptyDivElem none rfl rfl (by decide) (by decide)
    (by decide) (by decide)).mpr ⟨rfl, by decide, rfl⟩

/-- Counterexample for C1: an icon-classed node whose raster capture failed
satisfies every clause of the pruning condition — no direct text, no raster
path, `has_background = false`, no children — yet the extractor returns it
instead of discarding it, so the claimed iff fails. -/
theorem C1_counterexample :
    parse_element_recursively iconFailElem none = some iconFailData ∧
    iconFailData.text = none ∧
    iconFailData.icon_path = none ∧
    iconFailData.has_background = false ∧
    iconFailData.children = [] ∧
    (some iconFailData ≠ (none : Option ElementData)) :=
  ⟨rfl, rfl, rfl, rfl, rfl, fun h => Option.noConfusion h⟩

/-- C8 (corrected/amended): for every node that is NOT icon-classed and NOT
code-block-classed, `has_background` is true iff the parsed background color
has positive alpha and differs from the inherited effective background, and
the background passed down to the children is the node's own parsed
background when `has_background` holds and the unchanged inherited value
otherwise.  (Icon-classed and code-block nodes bypass this computation and
always carry `has_background = false`.) -/
theorem C8_has_background_amended :
    ∀ (e : HElem) (pbg : Option RGBA) (d : ElementData),
      parse_element_recursively e pbg = some d →
      isIconClassed e.classes = false → isCodeBlockClassed e.classes = false →
      (d.has_background = true ↔
        0 < (parse_color e.geom.backgroundColor).a ∧
          some (parse_color e.geom.backgroundColor) ≠ pbg) ∧
      d.children = parseChildren e.children
        (if d.has_background then some (parse_color e.geom.backgroundColor) else pbg) := by
  intro e pbg d h hic hcb
  cases e with
  | mk readable tagName classes geomOk geom capture textJs children =>
    dsimp only at hic hcb
    dsimp only
    simp only [parse_element_recursively, hic, hcb, Bool.false_eq_true, if_false] at h
    split at h
    · exact Option.noConfusion h
    split at h
    · exact Option.noConfusion h
    split at h
    · exact Option.noConfusion h
    split at h
    · exact Option.noConfusion h
    · injection h with h2
      subst h2
      constructor
      · simp only [hasBgOf, Bool.and_eq_true, decide_eq_true_eq]
      · simp only [childBgOf, hasBgOf]

/-- Witness for C8: the characterization applied to a classless div with an
opaque red background extracted under a `None` inherited background. -/
theorem C8_has_background_amended_witness :
    (divRedData.has_background = true ↔
      0 < (parse_color divRedElem.geom.backgroundColor).a ∧
        some (parse_color divRedElem.geom.backgroundColor) ≠ (none : Option RGBA)) ∧
    divRedData.children = parseChildren divRedElem.children
      (if divRedData.has_background then
        some (parse_color divRedElem.geom.backgroundColor) else none) :=
  C8_has_background_amended divRedElem none divRedData rfl (by decide) (by decide)

/-- Counterexample for C8: an icon-classed node with an opaque red
background (alpha 1 > 0, different from the `None` inherited background)
nevertheless carries `has_background = false`, because the icon
short-circuit returns before the background computation runs. -/
theorem C8_counterexample :
    parse_element_recursively iconRedElem none = some iconRedData ∧
    iconRedData.has_background = false ∧
    0 < (parse_color iconRedElem.geom.backgroundColor).a ∧
    some (parse_color iconRedElem.geom.backgroundColor) ≠ (none : Option RGBA) :=
  ⟨rfl, rfl, by decide, fun h => Option.noConfusion h⟩

/-- Lemma: `add_textbox` hands the element back unchanged: the width heuristic is
applied to the copied geometry only. -/
theorem add_textbox_snd (d : ElementData) (swpx : ℚ) : (add_textbox d swpx).2 = d := by
  unfold add_textbox
  split
  · rfl
  · split <;> rfl

mutual
/-- Rendering one element returns it unchanged. -/
theorem renderElement_snd : ∀ (d : ElementData) (swpx : ℚ), (renderElement d swpx).2 = d
  | ⟨tag, cls, text, geom, icon, hasBg, children⟩, swpx => by
    have hc := renderChildren_snd children swpx
    have ht := add_textbox_snd ⟨tag, cls, text, geom, icon, hasBg, children⟩ swpx
    simp only [renderElement]
    rw [hc]
    split
    · rfl
    · split
      · rename_i t d2 heq
        rw [heq] at ht
        dsimp only at ht ⊢
        rw [ht]
      · rename_i d2 heq
        rw [heq] at ht
        dsimp only at ht ⊢
        rw [ht]

/-- Rendering a list of elements returns it unchanged. -/
theorem renderChildren_snd : ∀ (l : List ElementData) (swpx : ℚ),
    (renderChildren l swpx).2 = l
  | [], _ => rfl
  | d :: rest, swpx => by
    have h1 := renderElement_snd d swpx
    have h2 := renderChildren_snd rest swpx
    simp only [renderChildren]
    rw [h1, h2]
end

/-- C9: rendering never mutates the extracted model — `add_textbox` applies
the width heuristic to a copy of the node's geometry and returns the node
unchanged, and `add_elements_to_slide` returns every node (geometry, text,
icon path, background flag, children) exactly as it received it. -/
theorem C9_render_no_mutation :
    (∀ (elements : List ElementData) (swpx : ℚ),
      (add_elements_to_slide elements swpx).2 = elements) ∧
    (∀ (d : ElementData) (swpx : ℚ), (add_textbox d swpx).2 = d) :=
  ⟨fun es swpx => renderChildren_snd es swpx, add_textbox_snd⟩
